import Mathlib

/-!
Shallow embedding of the wedding-photo-gallery client
(`src/src/components/wedding-photo-gallery.tsx`, with the unnamed variant
`src/unnamed/part_000` agreeing on everything modelled here except where
noted).  The React component's `useState` cells become fields of explicit
state records, and each callback becomes a pure state transformer whose
asynchronous platform calls (Firebase auth/storage) are passed in as
explicit outcomes or environment functions.  Presentation-only concerns
(toast text, analytics `logEvent`, the `sendingSignInLink` spinner flag)
are not modelled; user-visible error surfacing is modelled by the
`errorShown` flag.
-/

/-- JavaScript truthiness of a `string | undefined` value: `undefined` and
the empty string are falsy, every other string is truthy.  Used for
`pageToken ? … : …`, `!!res.nextPageToken` and `if (!email)`. -/
def truthy : Option String → Bool
  | none => false
  | some s => s ≠ ""

/-- One gallery item, as in the `PhotoItem` interface: a resolved download
`url` and the remote object `name` (the opaque `storageRef` carries no
information beyond the name for our purposes and is dropped). -/
structure PhotoItem where
  url : String
  name : String
deriving Repr, DecidableEq

/-- Result of one `list(listRef, { maxResults, pageToken })` call: the
listed object names (in listing order) and the optional continuation
token. -/
structure ListResult where
  items : List String
  nextPageToken : Option String
deriving Repr, DecidableEq

/-- The component state touched by `fetchPhotos`: the `photos`, `loading`,
`hasMore` and `pageToken` `useState` cells. -/
structure GalleryState where
  photos : List PhotoItem
  loading : Bool
  hasMore : Bool
  pageToken : Option String
deriving Repr, DecidableEq

/-- The initial component state: `photos = []`, `loading = false`,
`hasMore = true`, `pageToken = undefined`. -/
def initialState : GalleryState :=
  { photos := [], loading := false, hasMore := true, pageToken := none }

/-- The `Promise.all(res.items.map(...getDownloadURL...))` step: resolve a
download URL for every listed name; if any single resolution fails
(`resolve n = none`), the whole step fails (`Promise.all` rejects) and no
item list is produced. -/
def resolveItems (resolve : String → Option String) : List String → Option (List PhotoItem)
  | [] => some []
  | n :: ns =>
    match resolve n, resolveItems resolve ns with
    | some u, some rest => some ({ url := u, name := n } :: rest)
    | _, _ => none

/-- `setLoading(true)` at the top of `fetchPhotos`. -/
def beginFetch (s : GalleryState) : GalleryState := { s with loading := true }

/-- The body of `fetchPhotos` after `setLoading(true)`: `lo = none` models
the `list` call throwing; a failed URL resolution models `Promise.all`
rejecting.  Both land in the `catch` block, which only toasts, so photos,
pageToken and hasMore are untouched.  On success the code runs
`setPhotos(prev => pageToken ? [...prev, ...items] : items)`,
`setPageToken(res.nextPageToken)` and `setHasMore(!!res.nextPageToken)`.
`setLoading(false)` runs after the try/catch in every case. -/
def settleFetch (lo : Option ListResult) (resolve : String → Option String)
    (s : GalleryState) : GalleryState :=
  match lo with
  | none => { s with loading := false }
  | some res =>
    match resolveItems resolve res.items with
    | none => { s with loading := false }
    | some items =>
      { photos := if truthy s.pageToken then s.photos ++ items else items
        pageToken := res.nextPageToken
        hasMore := truthy res.nextPageToken
        loading := false }

/-- One complete run of `fetchPhotos` with the given listing outcome. -/
def fetchPhotos (lo : Option ListResult) (resolve : String → Option String)
    (s : GalleryState) : GalleryState :=
  settleFetch lo resolve (beginFetch s)

/-- Modelled from the spec: the object-storage listing contract of §6,
`listObjects(pathPrefix, pageSize, cursor?) -> { items, nextCursor? }`
(the Firebase `list` call is external to the repository).  The store is
the full ordered listing of object names; a page is the next `maxResults`
names after the cursor, and the continuation token is present exactly when
names remain beyond this page (so an exactly-full final page carries no
token).  The token is opaque to the client; it is modelled as a string
encoding the number of names already consumed. -/
def listObjects (store : List String) (maxResults : Nat)
    (pageToken : Option String) : ListResult :=
  let start := match pageToken with
    | none => 0
    | some t => t.length
  let next := start + maxResults
  { items := (store.drop start).take maxResults
    nextPageToken :=
      if next < store.length then some (String.mk (List.replicate next '*')) else none }

/-- `fetchPhotos` run against the modelled storage backend. -/
def fetchFromStore (store : List String) (maxResults : Nat)
    (resolve : String → Option String) (s : GalleryState) : GalleryState :=
  fetchPhotos (some (listObjects store maxResults s.pageToken)) resolve s

example : (fetchFromStore ["3_c.jpg", "2_b.jpg", "1_a.jpg"] 2 (fun n => some n)
    initialState).photos.map PhotoItem.name = ["3_c.jpg", "2_b.jpg"] := by decide

example : (fetchFromStore ["3_c.jpg", "2_b.jpg", "1_a.jpg"] 2 (fun n => some n)
    initialState).hasMore = true := by decide

/-- State of the scroll-trigger model: the gallery state plus a counter of
how many `fetchPhotos` calls the sentinel has started. -/
structure ScrollState where
  gallery : GalleryState
  startedLoads : Nat
deriving Repr, DecidableEq

/-- One sentinel-visibility event handled by `infiniteScrollRef` and the
`IntersectionObserver` it installs, taken as one atomic step of the UI
event loop.  The ref callback returns at once when `loading` is true (and
on a re-render during a load the previously attached observer has been
disconnected), so a trigger during an in-flight load does nothing.
Otherwise the observer callback runs `fetchPhotos()` when the entry is
intersecting and `hasMore` holds; `fetchPhotos` immediately sets
`loading` to true (`beginFetch`), and the started call is counted. -/
def sentinelTrigger (isIntersecting : Bool) (st : ScrollState) : ScrollState :=
  if st.gallery.loading then st
  else if isIntersecting && st.gallery.hasMore then
    { gallery := beginFetch st.gallery, startedLoads := st.startedLoads + 1 }
  else st

/-- State touched by the authentication callbacks.  `storedEmail` is the
value under the fixed localStorage key `emailForSignIn` (`none` when the
key is absent); `urlStripped` records whether
`window.history.replaceState` has removed the sign-in-link artifacts from
the URL; `exchangeAttempts` lists the emails passed to
`signInWithEmailLink`, in order. -/
structure AuthState where
  user : Option String
  storedEmail : Option String
  modalOpen : Bool
  modalEmail : String
  urlStripped : Bool
  exchangeAttempts : List String
  errorShown : Bool
deriving Repr, DecidableEq

/-- The initial auth state for a page load that finds `stored` under the
`emailForSignIn` key: no user, modal closed, URL untouched, no exchange
attempted yet. -/
def initialAuthState (stored : Option String) : AuthState :=
  { user := none, storedEmail := stored, modalOpen := false, modalEmail := ""
    urlStripped := false, exchangeAttempts := [], errorShown := false }

/-- `completeSignIn(email)`: awaits `signInWithEmailLink` (recorded as one
exchange attempt; `succeeds` is its outcome).  On success the code removes
`emailForSignIn` from localStorage, strips the link artifacts from the URL
via `history.replaceState`, and stores the resulting user.  On failure the
`catch` block only toasts an error: nothing else changes. -/
def completeSignIn (succeeds : Bool) (email : String) (a : AuthState) : AuthState :=
  let a1 := { a with exchangeAttempts := a.exchangeAttempts ++ [email] }
  if succeeds then
    { a1 with storedEmail := none, urlStripped := true, user := some email }
  else
    { a1 with errorShown := true }

/-- `sendSignInLink`: awaits `sendSignInLinkToEmail` (outcome `succeeds`);
on success it writes the email under `emailForSignIn` and toasts success;
on failure it only toasts an error.  It never calls `signInWithEmailLink`
(the `sendingSignInLink` spinner flag is presentation-only and not
modelled). -/
def sendSignInLink (succeeds : Bool) (email : String) (a : AuthState) : AuthState :=
  if succeeds then { a with storedEmail := some email }
  else { a with errorShown := true }

/-- `handleModalSubmit`: fires `completeSignIn(modalEmail)` (not awaited;
its rejection is caught and toasted) and then unconditionally runs
`setIsModalOpen(false)`. -/
def handleModalSubmit (succeeds : Bool) (a : AuthState) : AuthState :=
  { completeSignIn succeeds a.modalEmail a with modalOpen := false }

/-- The mount-time `useEffect` guarded by `isSignInWithEmailLink`
(`isLink`): it reads `emailForSignIn` from localStorage; when the value is
falsy (`if (!email)`) it opens the confirmation modal, otherwise it calls
`completeSignIn` with the stored email. -/
def checkSignInLink (isLink : Bool) (succeeds : Bool) (a : AuthState) : AuthState :=
  if isLink then
    if truthy a.storedEmail then completeSignIn succeeds (a.storedEmail.getD "") a
    else { a with modalOpen := true }
  else a

/-- TypeScript `String.prototype.startsWith` (used on `file.type`),
modelled on the character lists of the strings. -/
def strStartsWith (s p : String) : Bool :=
  s.data.take p.data.length == p.data

/-- A locally selected file: its original `name`, declared media `type`
and `size` in bytes. -/
structure MediaFile where
  name : String
  type : String
  size : Nat
deriving Repr, DecidableEq

/-- State touched by the upload path: the feed, the list of object-store
paths passed to `uploadBytes` (in order), and the error toast flag. -/
structure UploadState where
  photos : List PhotoItem
  writes : List String
  errorShown : Bool
deriving Repr, DecidableEq

/-- `uploadMedia(file)`: computes the remote name as
`Date.now() + "_" + file.name` (`now` is the clock reading), calls
`uploadBytes` on `photos/<name>` (outcome `writeSucceeds`), then resolves
a download URL for the new object and prepends the new item to the feed.
Any failure lands in the `catch` block, which only toasts. -/
def uploadMedia (now : Nat) (writeSucceeds : Bool) (resolve : String → Option String)
    (file : MediaFile) (st : UploadState) : UploadState :=
  let name := toString now ++ "_" ++ file.name
  let path := "photos/" ++ name
  let st1 := { st with writes := st.writes ++ [path] }
  if writeSucceeds then
    match resolve path with
    | some url => { st1 with photos := { url := url, name := name } :: st1.photos }
    | none => { st1 with errorShown := true }
  else { st1 with errorShown := true }

/-- `handleFileUpload` (canonical variant,
`src/src/components/wedding-photo-gallery.tsx`): returns at once when no
file is selected; rejects with an error toast when the declared type
starts with neither `image/` nor `video/`, or when the size exceeds
`maxUploadSize` megabytes; otherwise runs `uploadMedia`.  (The unnamed
variant `src/unnamed/part_000` omits both validation checks.) -/
def handleFileUpload (maxUploadSize : Nat) (now : Nat) (writeSucceeds : Bool)
    (resolve : String → Option String) (file : Option MediaFile)
    (st : UploadState) : UploadState :=
  match file with
  | none => st
  | some f =>
    if !(strStartsWith f.type "image/" || strStartsWith f.type "video/") then
      { st with errorShown := true }
    else if f.size > maxUploadSize * 1024 * 1024 then
      { st with errorShown := true }
    else uploadMedia now writeSucceeds resolve f st

/-- The name computed by `uploadMedia` embeds the capture timestamp `t`
when it is the decimal rendering of `t` followed by an underscore and the
original filename. -/
def nameEmbeds (t : Nat) (n : String) : Prop :=
  ∃ rest, n = toString t ++ "_" ++ rest

example : (uploadMedia 5 true (fun _ => some "u")
    { name := "a.jpg", type := "image/jpeg", size := 1 }
    { photos := [], writes := [], errorShown := false }).photos
    = [{ url := "u", name := "5_a.jpg" }] := by decide

/-! Helper lemmas about `resolveItems` and `fetchFromStore`. -/

theorem resolveItems_names {resolve : String → Option String} :
    ∀ {ns : List String} {items : List PhotoItem},
      resolveItems resolve ns = some items → items.map PhotoItem.name = ns := by
  intro ns
  induction ns with
  | nil => intro items h; simp [resolveItems] at h; simp [← h]
  | cons n ns ih =>
    intro items h
    simp only [resolveItems] at h
    cases hu : resolve n with
    | none => rw [hu] at h; simp at h
    | some u =>
      rw [hu] at h
      cases hr : resolveItems resolve ns with
      | none => rw [hr] at h; simp at h
      | some rest =>
        rw [hr] at h
        simp at h
        subst h
        simp [ih hr]

theorem resolveItems_total {resolve : String → Option String}
    (hres : ∀ n, (resolve n).isSome = true) :
    ∀ ns : List String, ∃ items, resolveItems resolve ns = some items ∧
      items.map PhotoItem.name = ns := by
  intro ns
  induction ns with
  | nil => exact ⟨[], rfl, rfl⟩
  | cons n ns ih =>
    obtain ⟨rest, hr, hnames⟩ := ih
    obtain ⟨u, hu⟩ := Option.isSome_iff_exists.mp (hres n)
    exact ⟨{ url := u, name := n } :: rest,
      by simp [resolveItems, hu, hr], by simp [hnames]⟩

theorem fetchFromStore_eq {store : List String} {m : Nat}
    {resolve : String → Option String}
    (hres : ∀ n, (resolve n).isSome = true) (s : GalleryState) :
    ∃ items, items.map PhotoItem.name = (listObjects store m s.pageToken).items ∧
      fetchFromStore store m resolve s =
        { photos := if truthy s.pageToken then s.photos ++ items else items
          pageToken := (listObjects store m s.pageToken).nextPageToken
          hasMore := truthy (listObjects store m s.pageToken).nextPageToken
          loading := false } := by
  obtain ⟨items, hr, hnames⟩ :=
    resolveItems_total hres (listObjects store m s.pageToken).items
  exact ⟨items, hnames, by
    simp [fetchFromStore, fetchPhotos, settleFetch, beginFetch, hr]⟩

theorem listObjects_falsy {store : List String} {m : Nat} {pt : Option String}
    (h : truthy pt = false) : listObjects store m pt = listObjects store m none := by
  cases pt with
  | none => rfl
  | some t =>
    have ht : t = "" := by
      by_contra hne
      simp [truthy, hne] at h
    subst ht
    rfl

theorem fetch_falsy_first_page {store : List String} {m : Nat}
    {resolve : String → Option String}
    (hres : ∀ n, (resolve n).isSome = true) {s : GalleryState}
    (hfalsy : truthy s.pageToken = false) :
    (fetchFromStore store m resolve s).photos.map PhotoItem.name = store.take m := by
  obtain ⟨items, hnames, heq⟩ := @fetchFromStore_eq store m resolve hres s
  rw [listObjects_falsy hfalsy] at hnames
  rw [heq]
  simp [hfalsy]
  simpa [listObjects] using hnames

theorem cursor_truthy {n : Nat} (h : 0 < n) :
    truthy (some (String.mk (List.replicate n '*'))) = true := by
  have : List.replicate n '*' ≠ [] := by
    simp [List.replicate_eq_nil_iff]
    omega
  simp [truthy, String.ext_iff]
  simpa using this

theorem cursor_length (n : Nat) : (String.mk (List.replicate n '*')).length = n := by
  show (List.replicate n '*').length = n
  simp

theorem two_pages_names (store : List String) (m : Nat)
    (resolve : String → Option String) (hm : 0 < m)
    (hres : ∀ n, (resolve n).isSome = true) :
    ((fetchFromStore store m resolve
        (fetchFromStore store m resolve initialState)).photos.map PhotoItem.name)
      = store.take (m + m) := by
  obtain ⟨items1, hn1, he1⟩ :=
    @fetchFromStore_eq store m resolve hres initialState
  by_cases hlt : m < store.length
  · have hpt1 : (fetchFromStore store m resolve initialState).pageToken
        = some (String.mk (List.replicate m '*')) := by
      rw [he1]
      simp [listObjects, hlt, initialState]
    have hph1 : (fetchFromStore store m resolve initialState).photos.map PhotoItem.name
        = store.take m := by
      rw [he1]
      simp [initialState, truthy]
      simpa [listObjects, initialState] using hn1
    obtain ⟨items2, hn2, he2⟩ :=
      @fetchFromStore_eq store m resolve hres
        (fetchFromStore store m resolve initialState)
    rw [he2]
    have htr : truthy (fetchFromStore store m resolve initialState).pageToken = true := by
      rw [hpt1]; exact cursor_truthy hm
    rw [hpt1] at hn2
    simp [htr]
    rw [hph1]
    have hi2 : items2.map PhotoItem.name = (store.drop m).take m := by
      simpa [listObjects, cursor_length] using hn2
    rw [hi2, ← List.take_add]
  · have hpt1 : (fetchFromStore store m resolve initialState).pageToken = none := by
      rw [he1]
      simp [listObjects, hlt, initialState]
    have hfalsy : truthy (fetchFromStore store m resolve initialState).pageToken = false := by
      rw [hpt1]; rfl
    rw [fetch_falsy_first_page hres hfalsy]
    have hle : store.length ≤ m := Nat.le_of_not_lt hlt
    rw [List.take_of_length_le hle,
      List.take_of_length_le (le_trans hle (Nat.le_add_right m m))]

/-! The claims. -/

/-- C1, counterexample: with page size 2 and a store holding exactly two
objects, the first fetch returns a full page (2 = maxResults items), yet
`hasMore` ends up false — the code derives `hasMore` from
`!!res.nextPageToken`, and an exactly-full final page carries no
continuation token.  This refutes "hasMore is true after any full
page". -/
theorem C1_hasMore_counterexample :
    (listObjects ["b", "a"] 2 initialState.pageToken).items.length = 2 ∧
    (fetchFromStore ["b", "a"] 2 (fun n => some n) initialState).hasMore = false := by
  decide

/-- C1, amended: after a fetch in which the listing succeeds and every
retrieval URL resolves, `hasMore` equals the truthiness of the listing
response's `nextPageToken` — not a comparison of the page size with the
number of returned items. -/
theorem C1_hasMore_eq_token (store : List String) (m : Nat)
    (resolve : String → Option String) (s : GalleryState)
    (hres : ∀ n, (resolve n).isSome = true) :
    (fetchFromStore store m resolve s).hasMore =
      truthy (listObjects store m s.pageToken).nextPageToken := by
  obtain ⟨items, hnames, heq⟩ := @fetchFromStore_eq store m resolve hres s
  rw [heq]

/-- C1, witness for the amended theorem at a concrete store. -/
theorem C1_hasMore_eq_token_witness :
    (fetchFromStore ["3_c.jpg", "2_b.jpg", "1_a.jpg"] 2 (fun n => some n)
      initialState).hasMore =
      truthy (listObjects ["3_c.jpg", "2_b.jpg", "1_a.jpg"] 2
        initialState.pageToken).nextPageToken :=
  C1_hasMore_eq_token ["3_c.jpg", "2_b.jpg", "1_a.jpg"] 2 (fun n => some n)
    initialState (fun _ => rfl)

/-- C2: the scroll trigger honors the single-flight guard: while a fetch
is outstanding (`loading = true`) a sentinel event starts nothing and
changes nothing; and from an idle state with `hasMore`, two sentinel
triggers in rapid succession (no fetch completion in between) start
exactly one `fetchPhotos` call, never two. -/
theorem C2_scroll_single_flight (st : ScrollState) :
    (st.gallery.loading = true → ∀ b, sentinelTrigger b st = st) ∧
    (st.gallery.loading = false → st.gallery.hasMore = true →
      (sentinelTrigger true (sentinelTrigger true st)).startedLoads
        = st.startedLoads + 1) := by
  constructor
  · intro h b
    simp [sentinelTrigger, h]
  · intro h hm
    simp [sentinelTrigger, h, hm, beginFetch]

/-- C2, witness: from the initial state two rapid sentinel triggers start
exactly one load. -/
theorem C2_scroll_single_flight_witness :
    (sentinelTrigger true (sentinelTrigger true
      { gallery := initialState, startedLoads := 0 })).startedLoads = 0 + 1 :=
  (C2_scroll_single_flight { gallery := initialState, startedLoads := 0 }).2 rfl rfl

/-- C3: when the backend listing is a duplicate-free, descending-by-name
store (the spec's ordering policy) and every URL resolves, loading page 1
and then page 2 yields a feed whose names are pairwise descending —
including across the page boundary — and contain no duplicates. -/
theorem C3_pagination_sorted_nodup (store : List String) (m : Nat)
    (resolve : String → Option String) (hm : 0 < m)
    (hres : ∀ n, (resolve n).isSome = true)
    (hsort : store.Pairwise (fun a b => b < a)) :
    ((fetchFromStore store m resolve
        (fetchFromStore store m resolve initialState)).photos.map
        PhotoItem.name).Pairwise (fun a b => b < a) ∧
    ((fetchFromStore store m resolve
        (fetchFromStore store m resolve initialState)).photos.map
        PhotoItem.name).Nodup := by
  rw [two_pages_names store m resolve hm hres]
  have hp : (store.take (m + m)).Pairwise (fun a b => b < a) :=
    hsort.sublist (List.take_sublist (m + m) store)
  exact ⟨hp, hp.imp fun hab => ne_of_gt hab⟩

/-- C3, witness: the spec's own example — page size 2 over
`3_c.jpg, 2_b.jpg, 1_a.jpg`. -/
theorem C3_pagination_sorted_nodup_witness :
    ((fetchFromStore ["3_c.jpg", "2_b.jpg", "1_a.jpg"] 2 (fun n => some n)
        (fetchFromStore ["3_c.jpg", "2_b.jpg", "1_a.jpg"] 2 (fun n => some n)
          initialState)).photos.map PhotoItem.name).Nodup :=
  (C3_pagination_sorted_nodup ["3_c.jpg", "2_b.jpg", "1_a.jpg"] 2 (fun n => some n)
    (by decide) (fun _ => rfl) (by simp [List.pairwise_cons]; decide)).2

/-- C4: every run of `fetchPhotos` ends with `loading = false`; when the
listing fails, or any retrieval-URL resolution fails, the photos,
pageToken and hasMore cells are left unchanged; and a published page
resolves a URL for every listed object (the published items' names are
exactly the listed names). -/
theorem C4_fetch_failure_safe (lo : Option ListResult)
    (resolve : String → Option String) (s : GalleryState) :
    (fetchPhotos lo resolve s).loading = false ∧
    (lo = none →
      (fetchPhotos lo resolve s).photos = s.photos ∧
      (fetchPhotos lo resolve s).pageToken = s.pageToken ∧
      (fetchPhotos lo resolve s).hasMore = s.hasMore) ∧
    (∀ res, lo = some res → resolveItems resolve res.items = none →
      (fetchPhotos lo resolve s).photos = s.photos ∧
      (fetchPhotos lo resolve s).pageToken = s.pageToken ∧
      (fetchPhotos lo resolve s).hasMore = s.hasMore) ∧
    (∀ res items, lo = some res → resolveItems resolve res.items = some items →
      items.map PhotoItem.name = res.items) := by
  refine ⟨?_, ?_, ?_, ?_⟩
  · cases lo with
    | none => simp [fetchPhotos, settleFetch, beginFetch]
    | some res =>
      cases hr : resolveItems resolve res.items with
      | none => simp [fetchPhotos, settleFetch, beginFetch, hr]
      | some items => simp [fetchPhotos, settleFetch, beginFetch, hr]
  · intro h
    subst h
    simp [fetchPhotos, settleFetch, beginFetch]
  · intro res h hr
    subst h
    simp [fetchPhotos, settleFetch, beginFetch, hr]
  · intro res items h hr
    exact resolveItems_names hr

/-- C4, witness: a failing listing leaves the initial state's feed
untouched and clears `loading`. -/
theorem C4_fetch_failure_safe_witness :
    (fetchPhotos none (fun n => some n) initialState).loading = false ∧
    (fetchPhotos none (fun n => some n) initialState).photos = initialState.photos :=
  ⟨(C4_fetch_failure_safe none (fun n => some n) initialState).1,
    ((C4_fetch_failure_safe none (fun n => some n) initialState).2.1 rfl).1⟩

/-- C5: on a page load whose URL is a sign-in link, a truthy stored email
leads to exactly one automatic exchange attempt with that email and no
modal; a missing stored email opens the confirmation modal with no
exchange attempted. -/
theorem C5_link_check (succeeds : Bool) (stored : Option String) :
    (truthy stored = true →
      (checkSignInLink true succeeds (initialAuthState stored)).exchangeAttempts
        = [stored.getD ""] ∧
      (checkSignInLink true succeeds (initialAuthState stored)).modalOpen = false) ∧
    (truthy stored = false →
      (checkSignInLink true succeeds (initialAuthState stored)).modalOpen = true ∧
      (checkSignInLink true succeeds (initialAuthState stored)).exchangeAttempts
        = []) := by
  constructor
  · intro h
    cases succeeds <;>
      simp [checkSignInLink, initialAuthState, completeSignIn, h]
  · intro h
    simp [checkSignInLink, initialAuthState, h]

/-- C5, witness: a stored email produces exactly one automatic exchange
attempt. -/
theorem C5_link_check_witness :
    (checkSignInLink true true (initialAuthState (some "g@x.test"))).exchangeAttempts
      = [(some "g@x.test").getD ""] :=
  ((C5_link_check true (some "g@x.test")).1 (by decide)).1

/-- A concrete prompt-for-email state: the confirmation modal is open and
holds the email the user typed, nothing stored, nobody signed in. -/
def promptEmailState : AuthState :=
  { user := none, storedEmail := none, modalOpen := true
    modalEmail := "guest@example.test", urlStripped := false
    exchangeAttempts := [], errorShown := false }

/-- C6, counterexample: submitting the modal with a failing exchange does
NOT return to the PromptEmail (modal) state — `handleModalSubmit` closes
the modal unconditionally and the failure path never reopens it.  The
exchange was attempted, the error was surfaced, and the user stays signed
out with the modal closed. -/
theorem C6_modal_failure_counterexample :
    (handleModalSubmit false promptEmailState).modalOpen = false ∧
    (handleModalSubmit false promptEmailState).errorShown = true ∧
    (handleModalSubmit false promptEmailState).exchangeAttempts
      = ["guest@example.test"] ∧
    (handleModalSubmit false promptEmailState).user = none := by
  decide

/-- C6, amended: a failed exchange is non-fatal and leaves the state
unchanged — the user stays signed out, the pending email stays in local
storage, the URL is not stripped, and an error is surfaced; but when the
exchange was initiated from the confirmation modal, the modal is closed
(returning the user to the signed-out form, not to the modal). -/
theorem C6_exchange_failure (e : String) (a : AuthState) :
    ((completeSignIn false e a).user = a.user ∧
     (completeSignIn false e a).storedEmail = a.storedEmail ∧
     (completeSignIn false e a).urlStripped = a.urlStripped ∧
     (completeSignIn false e a).errorShown = true) ∧
    ((handleModalSubmit false a).modalOpen = false ∧
     (handleModalSubmit false a).user = a.user ∧
     (handleModalSubmit false a).storedEmail = a.storedEmail ∧
     (handleModalSubmit false a).urlStripped = a.urlStripped ∧
     (handleModalSubmit false a).errorShown = true) := by
  simp [completeSignIn, handleModalSubmit]

/-- C7: a file whose declared type is neither image nor video, or whose
size exceeds the configured maximum, is rejected with a visible error,
zero object-store writes, and an unchanged feed. -/
theorem C7_upload_validation (maxSz now : Nat) (ws : Bool)
    (resolve : String → Option String) (f : MediaFile) (st : UploadState)
    (h : (strStartsWith f.type "image/" || strStartsWith f.type "video/") = false ∨
         maxSz * 1024 * 1024 < f.size) :
    (handleFileUpload maxSz now ws resolve (some f) st).errorShown = true ∧
    (handleFileUpload maxSz now ws resolve (some f) st).writes = st.writes ∧
    (handleFileUpload maxSz now ws resolve (some f) st).photos = st.photos := by
  rcases h with h | h
  · simp [handleFileUpload, h]
  · by_cases ht : (strStartsWith f.type "image/" || strStartsWith f.type "video/") = true
    · simp [handleFileUpload, ht, h]
    · simp at ht
      simp [handleFileUpload, ht]

/-- C7, witness: a plain-text file is rejected with no write and no feed
change. -/
theorem C7_upload_validation_witness :
    (handleFileUpload 25 7 true (fun _ => some "u")
      (some { name := "notes.txt", type := "text/plain", size := 10 })
      { photos := [], writes := [], errorShown := false }).writes = [] :=
  (C7_upload_validation 25 7 true (fun _ => some "u")
    { name := "notes.txt", type := "text/plain", size := 10 }
    { photos := [], writes := [], errorShown := false }
    (Or.inl (by decide))).2.1

/-- C8: a successful upload at clock reading `now` writes the object
under `photos/<now>_<original-filename>`, prepends exactly one new item
with that name to the front of the feed, and — given that every
previously loaded item embeds an earlier timestamp — the new item's
embedded timestamp exceeds all of theirs. -/
theorem C8_upload_success (now : Nat) (resolve : String → Option String)
    (f : MediaFile) (st : UploadState) (url : String)
    (hres : resolve ("photos/" ++ (toString now ++ "_" ++ f.name)) = some url)
    (hclock : ∀ p ∈ st.photos, ∀ t, nameEmbeds t p.name → t < now) :
    (uploadMedia now true resolve f st).photos.length = st.photos.length + 1 ∧
    (uploadMedia now true resolve f st).photos.head?
      = some { url := url, name := toString now ++ "_" ++ f.name } ∧
    (uploadMedia now true resolve f st).photos.tail = st.photos ∧
    (uploadMedia now true resolve f st).writes
      = st.writes ++ ["photos/" ++ (toString now ++ "_" ++ f.name)] ∧
    nameEmbeds now (toString now ++ "_" ++ f.name) ∧
    (∀ p ∈ (uploadMedia now true resolve f st).photos.tail, ∀ t,
      nameEmbeds t p.name → t < now) := by
  refine ⟨?_, ?_, ?_, ?_, ⟨f.name, rfl⟩, ?_⟩ <;>
    simp [uploadMedia, hres]
  intro p hp t ht
  exact hclock p hp t ht

/-- C8, witness: uploading `a.jpg` at clock 5 onto an empty feed yields
the single item `5_a.jpg` at the head. -/
theorem C8_upload_success_witness :
    (uploadMedia 5 true (fun _ => some "u")
      { name := "a.jpg", type := "image/jpeg", size := 1 }
      { photos := [], writes := [], errorShown := false }).photos.head?
      = some { url := "u", name := "5_a.jpg" } :=
  (C8_upload_success 5 (fun _ => some "u")
    { name := "a.jpg", type := "image/jpeg", size := 1 }
    { photos := [], writes := [], errorShown := false } "u" rfl
    (by simp)).2.1

/-- C9: a successful sign-in-link request persists exactly the requested
email under the `emailForSignIn` key and performs no exchange call in the
same turn; a failed request persists nothing and surfaces an error. -/
theorem C9_send_link (succeeds : Bool) (email : String) (a : AuthState) :
    (sendSignInLink succeeds email a).exchangeAttempts = a.exchangeAttempts ∧
    (succeeds = true → (sendSignInLink succeeds email a).storedEmail = some email) ∧
    (succeeds = false →
      (sendSignInLink succeeds email a).storedEmail = a.storedEmail ∧
      (sendSignInLink succeeds email a).errorShown = true) := by
  cases succeeds <;> simp [sendSignInLink]

/-- C9, witness: a successful request stores exactly the requested
email. -/
theorem C9_send_link_witness :
    (sendSignInLink true "g@x.test" (initialAuthState none)).storedEmail
      = some "g@x.test" :=
  (C9_send_link true "g@x.test" (initialAuthState none)).2.1 rfl

/-- C10: whenever the stored cursor is falsy (as after consuming the
final page, which stores `undefined`), a further successful fetch
replaces the whole feed with the first page again — the result equals a
fresh first-page load and is independent of the previously shown
photos. -/
theorem C10_reset_on_falsy_cursor (store : List String) (m : Nat)
    (resolve : String → Option String) (s : GalleryState)
    (hres : ∀ n, (resolve n).isSome = true)
    (hfalsy : truthy s.pageToken = false) :
    (fetchFromStore store m resolve s).photos.map PhotoItem.name = store.take m ∧
    (fetchFromStore store m resolve s).photos.map PhotoItem.name =
      (fetchFromStore store m resolve initialState).photos.map PhotoItem.name := by
  have h1 := @fetch_falsy_first_page store m resolve hres s hfalsy
  have h2 := @fetch_falsy_first_page store m resolve hres initialState rfl
  exact ⟨h1, h1.trans h2.symm⟩

/-- C10, witness: with a consumed cursor and a non-empty feed already
shown, a further fetch yields exactly the first page again. -/
theorem C10_reset_on_falsy_cursor_witness :
    (fetchFromStore ["3_c.jpg", "2_b.jpg", "1_a.jpg"] 2 (fun n => some n)
      { photos := [{ url := "1_a.jpg", name := "1_a.jpg" }]
        loading := false, hasMore := false, pageToken := none }).photos.map
      PhotoItem.name = ["3_c.jpg", "2_b.jpg", "1_a.jpg"].take 2 :=
  (C10_reset_on_falsy_cursor ["3_c.jpg", "2_b.jpg", "1_a.jpg"] 2 (fun n => some n)
    { photos := [{ url := "1_a.jpg", name := "1_a.jpg" }]
      loading := false, hasMore := false, pageToken := none }
    (fun _ => rfl) rfl).1
